import Mathlib

/-!
Formal model of the Superstore dashboard analytics pipeline.

The definitions below are shallow embeddings of the Python code in
`dashboard.py` and `report_generator.py`: pandas dataframes become lists of
records, money amounts become exact rationals, and the library calls the
code relies on (`pd.qcut`, `Series.rank(method='first')`, `groupby` with its
default sorted keys, `Series.replace` with regex patterns,
`str.encode('cp1252', 'replace')`) are modelled by executable Lean functions
with the same observable behaviour on the values the code feeds them.
-/

/-- A calendar date, as carried by the `Order Date` column after
`pd.to_datetime` parsing (dashboard.py line 67). -/
structure CalDate where
  year : Nat
  month : Nat
  day : Nat
deriving DecidableEq, Repr

/-- One transaction row of the Superstore sheet, restricted to the columns
the analytics pipeline reads. -/
structure Record where
  orderId : String
  customerId : String
  orderDate : CalDate
  region : String
  state : String
  city : String
  category : String
  subCategory : String
  sales : Rat
  profit : Rat
  quantity : Nat
  discount : Rat
deriving DecidableEq, Repr

/-- Days-from-civil-epoch for a calendar date (Howard Hinnant's algorithm,
the arithmetic behind `pandas.Timestamp` day differences).  Used for the
recency computation `(snapshot_date - date.max()).days`. -/
def dateToDays (d : CalDate) : Int :=
  let y : Int := if d.month ≤ 2 then (d.year : Int) - 1 else (d.year : Int)
  let era : Int := (if 0 ≤ y then y else y - 399) / 400
  let yoe : Int := y - era * 400
  let mp : Int := ((d.month : Int) + 9) % 12
  let doy : Int := (153 * mp + 2) / 5 + (d.day : Int) - 1
  let doe : Int := yoe * 365 + yoe / 4 - yoe / 100 + doy
  era * 146097 + doe - 719468

/-- Lines 100-125 of dashboard.py.  `df2` is the region-restricted frame,
`df3` additionally restricts by state; the final `filtered_df` picks the
branch of the `if city: ... elif state: ... elif region: ... else ...`
chain.  Note that the `city` branch filters `df3` (which already carries the
region and state restrictions) and the `state` branch filters `df2` (which
already carries the region restriction). -/
def filtered_df (df : List Record) (region state city : List String) : List Record :=
  let df2 := if region.isEmpty then df else df.filter (fun r => decide (r.region ∈ region))
  let df3 := if state.isEmpty then df2 else df2.filter (fun r => decide (r.state ∈ state))
  if city.isEmpty then
    if state.isEmpty then
      if region.isEmpty then df
      else df.filter (fun r => decide (r.region ∈ region))
    else df2.filter (fun r => decide (r.state ∈ state))
  else df3.filter (fun r => decide (r.city ∈ city))

/-- The city-only filter result that the specification says a full
region/state/city selection collapses to. -/
def cityOnlyFilter (df : List Record) (city : List String) : List Record :=
  df.filter (fun r => decide (r.city ∈ city))

/-- dashboard.py line 129 / report_generator.py line 23: `df['Sales'].sum()`. -/
def total_sales (ws : List Record) : Rat := (ws.map (fun r => r.sales)).sum

/-- dashboard.py line 130 / report_generator.py line 24: `df['Profit'].sum()`. -/
def total_profit (ws : List Record) : Rat := (ws.map (fun r => r.profit)).sum

/-- dashboard.py lines 132-135 (and identically report_generator.py line 25):
`(total_profit / total_sales) * 100 if total_sales > 0 else 0`. -/
def profit_margin (ws : List Record) : Rat :=
  if 0 < total_sales ws then total_profit ws / total_sales ws * 100 else 0

/-- dashboard.py line 136: `filtered_df["Order ID"].nunique()`. -/
def total_orders (ws : List Record) : Nat :=
  ((ws.map (fun r => r.orderId)).dedup).length

/- ---------------------------------------------------------------------
Export sanitization (report_generator.py, `export_to_pdf`, lines 106-134).
--------------------------------------------------------------------- -/

/-- The single code point removed by `re.sub(r'📈', '', report_text)`
(report_generator.py line 119). -/
def emojiChar : Char := '📈'

/-- Step 1 of the fix in `export_to_pdf`: every occurrence of the chart
emoji is removed outright (replaced by the empty string). -/
def removeEmoji (s : List Char) : List Char :=
  s.filter (fun c => decide (c ≠ emojiChar))

/-- Code points representable in Windows-1252, the encoding of the core
Helvetica font selected at report_generator.py line 114: all of ASCII,
U+00A0..U+00FF, and the 27 extra characters that cp1252 maps into
0x80..0x9F. -/
def cp1252Encodable (c : Char) : Bool :=
  decide (c.toNat ≤ 0x7F) ||
  (decide (0xA0 ≤ c.toNat) && decide (c.toNat ≤ 0xFF)) ||
  ([0x20AC, 0x201A, 0x192, 0x201E, 0x2026, 0x2020, 0x2021, 0x2C6, 0x2030,
    0x160, 0x2039, 0x152, 0x17D, 0x2018, 0x2019, 0x201C, 0x201D, 0x2022,
    0x2013, 0x2014, 0x2DC, 0x2122, 0x161, 0x203A, 0x153, 0x17E,
    0x178].contains c.toNat)

/-- One character of `text.encode('cp1252', 'replace').decode('cp1252')`:
an encodable code point round-trips unchanged, anything else becomes the
`'replace'` handler's `'?'` byte. -/
def encChar (c : Char) : Char :=
  if cp1252Encodable c then c else '?'

/-- Steps 2-4 of `export_to_pdf`: the cp1252 encode/decode round trip with
`errors='replace'`. -/
def encodeReplace (s : List Char) : List Char := s.map encChar

/-- The complete text transform of `export_to_pdf` (lines 119-128): emoji
removal followed by the cp1252 `'replace'` round trip.  This is the exact
string handed to `pdf.multi_cell`, so the produced document bytes are a
function of it. -/
def sanitizeChars (s : List Char) : List Char := encodeReplace (removeEmoji s)

/-- String-level version of `sanitizeChars`; this is the variable
`pdf_safe_text` of report_generator.py line 128. -/
def pdf_safe_text (s : String) : String := String.mk (sanitizeChars s.data)

/- ---------------------------------------------------------------------
RFM segment classification (dashboard.py lines 279-291).
--------------------------------------------------------------------- -/

/-- The eight regex-style rows of `segment_map` (dashboard.py lines
279-288), in the order the dict literal lists them.  Each pattern is a pair
of character alternatives for the two digits of the score key. -/
def segment_map : List ((List Char × List Char) × String) :=
  [ ((['1', '2'], ['1', '2']), "Hibernating"),
    ((['1', '2'], ['3', '4']), "At-Risk"),
    ((['3'], ['1', '2']), "Needs Attention"),
    ((['3'], ['3']), "About to Sleep"),
    ((['3', '4'], ['4']), "Loyal Customers"),
    ((['4'], ['1', '2']), "Promising"),
    ((['4'], ['3']), "Potential Loyalists"),
    ((['4'], ['4']), "Champions") ]

/-- `re.sub` for one two-character range pattern: scan left to right and
replace every (non-overlapping) match by the replacement text. -/
def reSubPat (p : List Char × List Char) (v : List Char) : List Char → List Char
  | c1 :: c2 :: rest =>
      if p.1.contains c1 && p.2.contains c2 then v ++ reSubPat p v rest
      else c1 :: reSubPat p v (c2 :: rest)
  | l => l

/-- `rfm_df['Segment'].replace(segment_map, regex=True)` applied to one
value (dashboard.py line 291): pandas walks the dict pairs in order and
regex-substitutes each into the current value.  A value replaced by an
earlier pattern is never hit by a later one, because the segment names
contain no digit characters. -/
def applySegmentMap (s : String) : String :=
  String.mk (segment_map.foldl (fun acc pv => reSubPat pv.1 pv.2.data acc) s.data)

/- ---------------------------------------------------------------------
Sorted grouping (`groupby` with its default `sort=True`).
--------------------------------------------------------------------- -/

/-- Code-point lexicographic comparison of character lists, the order
Python string comparison (and hence pandas' sorted group keys) uses. -/
def charListLt : List Char → List Char → Bool
  | _, [] => false
  | [], _ :: _ => true
  | a :: as, b :: bs =>
      if a < b then true
      else if b < a then false
      else charListLt as bs

/-- Python string `<` on Lean strings. -/
def strLtB (a b : String) : Bool := charListLt a.data b.data

/-- Insert a key into a sorted duplicate-free key list, keeping it sorted
and duplicate-free. -/
def insertKey (k : String) : List String → List String
  | [] => [k]
  | x :: xs =>
      if strLtB k x then k :: x :: xs
      else if k = x then x :: xs
      else x :: insertKey k xs

/-- The distinct keys of a list in ascending lexicographic order — the index
a pandas `groupby(...)` with default `sort=True` produces. -/
def sortedKeys : List String → List String
  | [] => []
  | k :: ks => insertKey k (sortedKeys ks)

/-- `df.groupby(key)[measure].sum()` with default sorting: one row per
distinct key, keys ascending, each row holding the sum of the measure over
the rows with that key. -/
def groupSum (keyf : Record → String) (measure : Record → Rat)
    (ws : List Record) : List (String × Rat) :=
  (sortedKeys (ws.map keyf)).map
    (fun k => (k, ((ws.filter (fun r => keyf r == k)).map measure).sum))

/-- `strftime('%b')` month abbreviations. -/
def monthAbbrev : Nat → String
  | 1 => "Jan" | 2 => "Feb" | 3 => "Mar" | 4 => "Apr"
  | 5 => "May" | 6 => "Jun" | 7 => "Jul" | 8 => "Aug"
  | 9 => "Sep" | 10 => "Oct" | 11 => "Nov" | 12 => "Dec"
  | _ => ""

/-- `strftime('%B')` full month names. -/
def monthNameFull : Nat → String
  | 1 => "January" | 2 => "February" | 3 => "March" | 4 => "April"
  | 5 => "May" | 6 => "June" | 7 => "July" | 8 => "August"
  | 9 => "September" | 10 => "October" | 11 => "November" | 12 => "December"
  | _ => ""

/-- `strftime('%Y')`: the year, zero-padded to four digits. -/
def yearStr (y : Nat) : String :=
  let s := toString y
  if 4 ≤ s.length then s
  else String.mk (List.replicate (4 - s.length) '0') ++ s

/-- The textual month bucket `month_year.dt.strftime("%Y : %b")` of
dashboard.py line 193; `to_period("M")` at line 192 makes the day of the
month irrelevant. -/
def monthKey (d : CalDate) : String :=
  yearStr d.year ++ " : " ++ monthAbbrev d.month

/-- dashboard.py line 193: the month-year time series
`filtered_df.groupby(month_year.dt.strftime("%Y : %b"))["Sales"].sum()`.
The group keys — and hence the order of the returned buckets — are the
formatted strings, sorted lexicographically. -/
def linechart (ws : List Record) : List (String × Rat) :=
  groupSum (fun r => monthKey r.orderDate) (fun r => r.sales) ws

/- ---------------------------------------------------------------------
RFM segmentation (dashboard.py lines 257-322).
--------------------------------------------------------------------- -/

/-- Maximum of a list of integers (groups it is applied to are nonempty). -/
def listMax : List Int → Int
  | [] => 0
  | x :: xs => xs.foldl max x

/-- Ascending insertion used by `sortRat`. -/
def insertRat (x : Rat) : List Rat → List Rat
  | [] => [x]
  | y :: ys => if x ≤ y then x :: y :: ys else y :: insertRat x ys

/-- Sort a list of rationals ascending (insertion sort). -/
def sortRat : List Rat → List Rat
  | [] => []
  | x :: xs => insertRat x (sortRat xs)

/-- The empirical quantile with linear interpolation, numpy/pandas'
default: for probability `p` over `n` sorted observations, interpolate at
rank `p * (n - 1)`. -/
def quantile (xs : List Rat) (p : Rat) : Rat :=
  let s := sortRat xs
  let n := s.length
  let h : Rat := p * ((n : Rat) - 1)
  let i : Nat := (⌊h⌋).toNat
  let g : Rat := h - (⌊h⌋ : Rat)
  let xi := s.getD i 0
  let xj := s.getD (i + 1) xi
  xi + g * (xj - xi)

/-- Whether a list is strictly increasing; `pd.qcut` raises `ValueError`
("bin edges must be unique") exactly when the computed quantile edges are
not. -/
def strictIncr : List Rat → Bool
  | a :: b :: t => decide (a < b) && strictIncr (b :: t)
  | _ => true

/-- `pd.qcut(xs, 4, labels=labels)`: quartile edges at probabilities
0, 1/4, 1/2, 3/4, 1; `none` models the `ValueError` on duplicate edges
(caught by the `except` at dashboard.py line 319); otherwise each value is
assigned the label of its quartile bin (lowest bin gets `labels[0]`). -/
def qcut4 (xs : List Rat) (labels : List Nat) : Option (List Nat) :=
  let e := [(0 : Rat), 1/4, 1/2, 3/4, 1].map (quantile xs)
  if strictIncr e then
    some (xs.map (fun x =>
      if x ≤ e.getD 1 0 then labels.getD 0 0
      else if x ≤ e.getD 2 0 then labels.getD 1 0
      else if x ≤ e.getD 3 0 then labels.getD 2 0
      else labels.getD 3 0))
  else none

/-- `Series.rank(method='first')` (dashboard.py line 274): ascending ranks
with ties broken by position of first appearance. -/
def rankFirst (xs : List Rat) : List Rat :=
  (List.range xs.length).map (fun j =>
    (((xs.countP (fun v => decide (v < xs.getD j 0))) +
      ((xs.take j).countP (fun v => decide (v = xs.getD j 0))) + 1 : Nat) : Rat))

/-- The sorted distinct customer identifiers — the index of
`filtered_df.groupby('Customer ID')` (dashboard.py line 266). -/
def rfmCustomers (ws : List Record) : List String :=
  sortedKeys (ws.map (fun r => r.customerId))

/-- The rows of one customer's group. -/
def ordersOf (ws : List Record) (c : String) : List Record :=
  ws.filter (fun r => r.customerId == c)

/-- `snapshot_date` (dashboard.py line 263): one day after the latest order
date in the working set, in epoch days. -/
def snapshotDays (ws : List Record) : Int :=
  listMax (ws.map (fun r => dateToDays r.orderDate)) + 1

/-- Recency: `(snapshot_date - date.max()).days` for one customer
(dashboard.py line 267). -/
def recencyOf (ws : List Record) (c : String) : Int :=
  snapshotDays ws - listMax ((ordersOf ws c).map (fun r => dateToDays r.orderDate))

/-- Frequency: `'Order ID': 'nunique'` for one customer (line 268). -/
def frequencyOf (ws : List Record) (c : String) : Nat :=
  (((ordersOf ws c).map (fun r => r.orderId)).dedup).length

/-- Monetary: `'Sales': 'sum'` for one customer (line 269). -/
def monetaryOf (ws : List Record) (c : String) : Rat :=
  ((ordersOf ws c).map (fun r => r.sales)).sum

/-- The `Recency` column of `rfm_df`, in customer-index order. -/
def recencies (ws : List Record) : List Rat :=
  (rfmCustomers ws).map (fun c => ((recencyOf ws c : Int) : Rat))

/-- The `Frequency` column of `rfm_df`. -/
def frequencies (ws : List Record) : List Rat :=
  (rfmCustomers ws).map (fun c => ((frequencyOf ws c : Nat) : Rat))

/-- The `MonetaryValue` column of `rfm_df`. -/
def monetaries (ws : List Record) : List Rat :=
  (rfmCustomers ws).map (fun c => monetaryOf ws c)

/-- The RFM segmentation run of dashboard.py lines 260-291: empty working
sets never reach the computation (`if not filtered_df.empty`), the three
`pd.qcut` score assignments run in source order inside the `try` block —
any duplicate-edge `ValueError` aborts the run (`none`) — and on success
each customer's R and F score digits are concatenated and pushed through
`segment_map`.  The M score is computed (and can itself abort the run) but
does not feed the segment label. -/
def rfm_segments (ws : List Record) : Option (List (String × String)) :=
  if ws.isEmpty then none
  else
    match qcut4 (recencies ws) [4, 3, 2, 1] with
    | none => none
    | some rs =>
      match qcut4 (rankFirst (frequencies ws)) [1, 2, 3, 4] with
      | none => none
      | some fs =>
        match qcut4 (monetaries ws) [1, 2, 3, 4] with
        | none => none
        | some _ms =>
            some (((rfmCustomers ws).zip (rs.zip fs)).map
              (fun p => (p.1, applySegmentMap (toString p.2.1 ++ toString p.2.2))))

/- ---------------------------------------------------------------------
Report generation (report_generator.py lines 5-95).
--------------------------------------------------------------------- -/

/-- Round a rational to the nearest integer, ties to even — the rounding of
Python's fixed-point `format`. -/
def roundHalfEven (q : Rat) : Int :=
  let f := ⌊q⌋
  let r := q - (f : Rat)
  if r < 1/2 then f
  else if 1/2 < r then f + 1
  else if f % 2 = 0 then f else f + 1

/-- Insert thousands separators into a reversed digit string. -/
def commasRev : List Char → List Char
  | a :: b :: c :: d :: rest => a :: b :: c :: ',' :: commasRev (d :: rest)
  | l => l

/-- A natural number with `,` thousands separators, as `'{:,}'.format`. -/
def natCommas (n : Nat) : String :=
  String.mk (commasRev (toString n).data.reverse).reverse

/-- `'{:,.2f}'`/`'{:.2f}'` on a non-negative amount: two decimals, with or
without thousands separators. -/
def twoDecimalsAbs (q : Rat) (commas : Bool) : String :=
  let cents := (roundHalfEven (q * 100)).toNat
  let ip := cents / 100
  let fp := cents % 100
  (if commas then natCommas ip else toString ip) ++ "." ++
    (if fp < 10 then "0" else "") ++ toString fp

/-- `f'{x:.2f}'` including the sign (used for the profit margin). -/
def fmtFloat2 (q : Rat) : String :=
  if q < 0 then "-" ++ twoDecimalsAbs (-q) false else twoDecimalsAbs q false

/-- report_generator.py lines 5-10: the single currency formatter.  A
non-negative amount renders as `$X,XXX.XX`, a negative one as `-$X,XXX.XX`. -/
def format_currency (amount : Rat) : String :=
  if 0 ≤ amount then "$" ++ twoDecimalsAbs amount true
  else "-$" ++ twoDecimalsAbs (-amount) true

/-- `idxmax` over a sorted grouped-sum table: the first key (under the
ascending key order of the table) attaining the maximum; `N/A` on the empty
table, mirroring the `if not ... .empty` guards. -/
def idxmaxS (l : List (String × Rat)) : String :=
  match l with
  | [] => "N/A"
  | x :: xs => (xs.foldl (fun b p => if b.2 < p.2 then p else b) x).1

/-- `idxmin` over a sorted grouped-sum table, first key on ties. -/
def idxminS (l : List (String × Rat)) : String :=
  match l with
  | [] => "N/A"
  | x :: xs => (xs.foldl (fun b p => if p.2 < b.2 then p else b) x).1

/-- `.max()` over a grouped-sum table (0 on the empty table, matching the
`else` branch at report_generator.py line 35). -/
def maxValS (l : List (String × Rat)) : Rat :=
  match l with
  | [] => 0
  | x :: xs => (xs.foldl (fun b p => if b.2 < p.2 then p else b) x).2

/-- report_generator.py line 29: `df.groupby('Category')['Sales'].sum()`. -/
def category_sales (ws : List Record) : List (String × Rat) :=
  groupSum (fun r => r.category) (fun r => r.sales) ws

/-- report_generator.py line 38: `df.groupby('Sub-Category')['Profit'].sum()`. -/
def subcategory_profit (ws : List Record) : List (String × Rat) :=
  groupSum (fun r => r.subCategory) (fun r => r.profit) ws

/-- report_generator.py line 47: `df.groupby('Region')['Sales'].sum()`. -/
def region_sales (ws : List Record) : List (String × Rat) :=
  groupSum (fun r => r.region) (fun r => r.sales) ws

/-- Linear month index used to model `resample('M')` buckets. -/
def monthIdx (d : CalDate) : Nat := d.year * 12 + (d.month - 1)

/-- Minimum of a list of naturals. -/
def listMinN : List Nat → Nat
  | [] => 0
  | x :: xs => xs.foldl min x

/-- Maximum of a list of naturals. -/
def listMaxN : List Nat → Nat
  | [] => 0
  | x :: xs => xs.foldl max x

/-- `df.set_index('Order Date').resample('M')['Sales'].sum()`
(report_generator.py line 57): one bucket per calendar month from the first
to the last month present, in chronological order, months with no rows
summing to zero. -/
def monthlySeries (ws : List Record) : List (Nat × Rat) :=
  let ms := ws.map (fun r => monthIdx r.orderDate)
  ((List.range (listMaxN ms + 1 - listMinN ms)).map (fun i => listMinN ms + i)).map
    (fun m => (m, ((ws.filter (fun r => monthIdx r.orderDate == m)).map
      (fun r => r.sales)).sum))

/-- report_generator.py line 58: `monthly_sales.idxmax().strftime('%B %Y')`,
with the `except`/empty fallback `"N/A"`; `idxmax` takes the first
(chronologically earliest) month attaining the maximum. -/
def peak_month (ws : List Record) : String :=
  if ws.isEmpty then "N/A"
  else
    match monthlySeries ws with
    | [] => "N/A"
    | x :: xs =>
        let best := xs.foldl (fun b p => if b.2 < p.2 then p else b) x
        monthNameFull (best.1 % 12 + 1) ++ " " ++ yearStr (best.1 / 12)

/-- The header-and-body narrative f-string of report_generator.py lines
64-93, built for a nonempty working set. -/
def reportBody (ws : List Record) : String :=
  "\n    ### 📈 **Automated Sales & Profit Analysis**\n\n    Here is a summary of the data based on your current filters.\n\n    ---\n\n    #### **Executive Summary:**\n\n    * **Total Sales:** **"
  ++ format_currency (total_sales ws)
  ++ "**\n    * **Total Profit:** **"
  ++ format_currency (total_profit ws)
  ++ "**\n    * **Overall Profit Margin:** **"
  ++ fmtFloat2 (profit_margin ws)
  ++ "%**\n\n    The analysis reveals that **"
  ++ idxmaxS (region_sales ws)
  ++ "** was the top-performing region. \n    The primary driver of sales was the **"
  ++ idxmaxS (category_sales ws)
  ++ "** category, contributing **"
  ++ format_currency (maxValS (category_sales ws))
  ++ "**.\n\n    ---\n\n    #### **Detailed Insights:**\n\n    * **Top Performers:**\n        * **Best Sales Category:** **"
  ++ idxmaxS (category_sales ws)
  ++ "** ("
  ++ format_currency (maxValS (category_sales ws))
  ++ ").\n        * **Most Profitable Sub-Category:** **"
  ++ idxmaxS (subcategory_profit ws)
  ++ "**.\n\n    * **Areas for Improvement:**\n        * **Least Profitable Sub-Category:** **"
  ++ idxminS (subcategory_profit ws)
  ++ "**. This sub-category should be reviewed.\n\n    * **Temporal Trends:**\n        * The sales performance peaked in **"
  ++ peak_month ws
  ++ "**, indicating a potential seasonal high.\n    "

/-- The early-return string of report_generator.py line 20. -/
def noDataText : String :=
  "### ⚠️ No Data Available\n\nNo data matches the current filters. Please select a broader date range or different filter options."

/-- `generate_report(df)` (report_generator.py lines 12-95) as a function of
the row contents alone. -/
def generate_report (ws : List Record) : String :=
  if ws.isEmpty then noDataText else reportBody ws

/-- The observable state of the dataframe object passed to
`generate_report`: its row contents plus the dtype of the `Order Date`
column (`True` when it already holds parsed datetimes). -/
structure DataFrame where
  rows : List Record
  orderDateIsDatetime : Bool
deriving DecidableEq, Repr

/-- `generate_report` with the caller's dataframe state made explicit:
line 56 (`df['Order Date'] = pd.to_datetime(df['Order Date'])`) overwrites
the `Order Date` column of the caller's object in place, converting it to
datetime dtype; the empty-input early return at line 19 fires before that
assignment. -/
def generate_reportSt (df : DataFrame) : String × DataFrame :=
  if df.rows.isEmpty then (noDataText, df)
  else (reportBody df.rows, { df with orderDateIsDatetime := true })

/- ---------------------------------------------------------------------
Concrete working sets used as test vectors.
--------------------------------------------------------------------- -/

/-- Build a transaction row with fixed product columns. -/
def mkRow (cid oid : String) (d : CalDate) (reg st cty : String) (s p : Rat) : Record :=
  { orderId := oid, customerId := cid, orderDate := d, region := reg, state := st,
    city := cty, category := "Furniture", subCategory := "Chairs",
    sales := s, profit := p, quantity := 1, discount := 0 }

/-- A Los Angeles row whose region selection is `East`. -/
def recEastLA : Record := mkRow "c1" "o1" ⟨2017, 3, 1⟩ "East" "California" "Los Angeles" 1 1

/-- A Los Angeles row in the same state but region `West`. -/
def recWestLA : Record := mkRow "c2" "o2" ⟨2017, 3, 2⟩ "West" "California" "Los Angeles" 2 1

/-- Two rows for the same city that differ in region. -/
def ex1 : List Record := [recEastLA, recWestLA]

/-- A February 2017 row. -/
def recFeb : Record := mkRow "c1" "o1" ⟨2017, 2, 10⟩ "East" "NY" "NYC" 5 1

/-- An April 2017 row. -/
def recApr : Record := mkRow "c2" "o2" ⟨2017, 4, 1⟩ "East" "NY" "NYC" 7 1

/-- Two rows whose months are chronologically Feb before Apr but
alphabetically Apr before Feb. -/
def ex7 : List Record := [recFeb, recApr]

/-- A single-customer, single-order working set. -/
def ws1 : List Record := [mkRow "c1" "o1" ⟨2017, 3, 1⟩ "East" "NY" "NYC" 1 1]

/-- First of four single-order customers. -/
def row1 : Record := mkRow "c1" "o1" ⟨2017, 3, 1⟩ "East" "NY" "NYC" 1 1

/-- Second of four single-order customers. -/
def row2 : Record := mkRow "c2" "o2" ⟨2017, 3, 2⟩ "East" "NY" "NYC" 2 1

/-- Third of four single-order customers. -/
def row3 : Record := mkRow "c3" "o3" ⟨2017, 3, 3⟩ "East" "NY" "NYC" 3 1

/-- Fourth of four single-order customers. -/
def row4 : Record := mkRow "c4" "o4" ⟨2017, 3, 4⟩ "East" "NY" "NYC" 4 1

/-- Four customers with one order each: four distinct recency and monetary
values but a single distinct frequency value. -/
def ws4 : List Record := [row1, row2, row3, row4]

/- ---------------------------------------------------------------------
Theorems.
--------------------------------------------------------------------- -/

/-- C4: for every working set whose total sales are zero, the profit margin
is exactly zero — the `if total_sales > 0` guard makes division by zero
unreachable, so `summarize` never raises. -/
theorem c4_zero_sales_margin (ws : List Record) (h : total_sales ws = 0) :
    profit_margin ws = 0 := by
  simp [profit_margin, h]

/-- C4 witness: the empty working set has zero total sales, and the theorem
yields a zero profit margin for it. -/
theorem c4_zero_sales_margin_witness : total_sales [] = 0 ∧ profit_margin [] = 0 :=
  ⟨rfl, c4_zero_sales_margin [] rfl⟩

/-- C2: evaluating the code's segment classification at the failing input:
a customer with recency score 4 and frequency score 4 gets the key `"44"`,
which the ordered `segment_map` replacement maps to `"Loyal Customers"` —
the `[3-4]4` row fires before the `44` row ever could — and not to the
`"Champions"` label that the in-app segment definitions promise for `44`. -/
theorem c2_segment_44_loyal :
    applySegmentMap (toString (4 : Nat) ++ toString (4 : Nat)) = "Loyal Customers" ∧
    applySegmentMap (toString (4 : Nat) ++ toString (4 : Nat)) ≠ "Champions" := by
  decide

/-- C9: the report generator maps the empty working set to the single
"no data" narrative section and, being a total function, raises nothing. -/
theorem c9_empty_report :
    generate_report [] =
      "### ⚠️ No Data Available\n\nNo data matches the current filters. Please select a broader date range or different filter options." :=
  rfl

/-- C5 counterexample: the claim says every unsupported code point is
replaced by a single placeholder and content is never silently dropped, but
the chart emoji is deleted outright by the `re.sub` step: sanitizing the
one-character string `📈` yields the empty string, not `"?"`. -/
theorem c5_counterexample :
    sanitizeChars [emojiChar] = [] ∧ sanitizeChars [emojiChar] ≠ ['?'] := by
  decide

/-- C1 counterexample: with region `East`, state `California`, and city
`Los Angeles` all selected, the working set is not the city-only filter
result: the second Los Angeles row (region `West`) survives the city-only
filter but not the cascaded one. -/
theorem c1_counterexample :
    filtered_df ex1 ["East"] ["California"] ["Los Angeles"] ≠
      cityOnlyFilter ex1 ["Los Angeles"] := by
  decide

/-- Helper: the key column of a grouped sum is the sorted distinct key
list. -/
theorem groupSum_keys (keyf : Record → String) (measure : Record → Rat)
    (ws : List Record) :
    (groupSum keyf measure ws).map Prod.fst = sortedKeys (ws.map keyf) := by
  unfold groupSum
  generalize sortedKeys (ws.map keyf) = L
  induction L with
  | nil => rfl
  | cons k ks ih => simp only [List.map_cons, ih]

/-- C7 counterexample: for a February and an April row of the same year the
monthly series comes back in the order `2017 : Apr`, `2017 : Feb` — the
lexicographic order of the textual keys — although chronological order
would list February first. -/
theorem c7_counterexample :
    (linechart ex7).map Prod.fst = ["2017 : Apr", "2017 : Feb"] ∧
    (linechart ex7).map Prod.fst ≠
      [monthKey recFeb.orderDate, monthKey recApr.orderDate] := by
  rw [linechart, groupSum_keys]
  decide

/-- C3 counterexample: a working set whose frequency dimension has a single
distinct value (four customers with one order each) still segments
successfully, because `rank(method='first')` spreads the ties before
binning — so "fewer than 4 distinct values in a dimension" does not imply
an `InsufficientData` failure. -/
theorem c3_counterexample :
    (frequencies ws4).dedup.length < 4 ∧ (rfm_segments ws4).isSome = true := by
  have hcust : rfmCustomers ws4 = ["c1", "c2", "c3", "c4"] := by decide
  have hrec : recencies ws4 = [4, 3, 2, 1] := by
    rw [recencies, hcust]
    have h1 : recencyOf ws4 "c1" = 4 := by decide
    have h2 : recencyOf ws4 "c2" = 3 := by decide
    have h3 : recencyOf ws4 "c3" = 2 := by decide
    have h4 : recencyOf ws4 "c4" = 1 := by decide
    simp [h1, h2, h3, h4]
  have hfr : frequencies ws4 = [1, 1, 1, 1] := by
    rw [frequencies, hcust]
    have h1 : frequencyOf ws4 "c1" = 1 := by decide
    have h2 : frequencyOf ws4 "c2" = 1 := by decide
    have h3 : frequencyOf ws4 "c3" = 1 := by decide
    have h4 : frequencyOf ws4 "c4" = 1 := by decide
    simp [h1, h2, h3, h4]
  have hmon : monetaries ws4 = [1, 2, 3, 4] := by
    rw [monetaries, hcust]
    have o1 : ordersOf ws4 "c1" = [row1] := by decide
    have o2 : ordersOf ws4 "c2" = [row2] := by decide
    have o3 : ordersOf ws4 "c3" = [row3] := by decide
    have o4 : ordersOf ws4 "c4" = [row4] := by decide
    simp [monetaryOf, o1, o2, o3, o4, row1, row2, row3, row4, mkRow]
  have hq1 : qcut4 [(4 : Rat), 3, 2, 1] [4, 3, 2, 1] = some [1, 2, 3, 4] := by
    norm_num [qcut4, quantile, sortRat, insertRat, strictIncr, Int.toNat]
  have hrk : rankFirst [(1 : Rat), 1, 1, 1] = [1, 2, 3, 4] := by decide
  have hq2 : qcut4 [(1 : Rat), 2, 3, 4] [1, 2, 3, 4] = some [1, 2, 3, 4] := by
    norm_num [qcut4, quantile, sortRat, insertRat, strictIncr, Int.toNat]
  have hne : ws4.isEmpty = false := by decide
  refine ⟨by rw [hfr]; decide, ?_⟩
  simp [rfm_segments, hne, hrec, hfr, hmon, hrk, hq1, hq2]

/-- C10 counterexample: `generate_report` is not frame-pure — called on a
dataframe whose `Order Date` column is not yet datetime, it overwrites that
column in place (line 56), so the caller's object changes. -/
theorem c10_counterexample :
    (generate_reportSt ⟨ws1, false⟩).2 ≠ ⟨ws1, false⟩ := by
  decide

/-- Helper: one step of the sanitizer — the emoji is dropped, any other
character goes through the cp1252 replacement map. -/
theorem sanitizeChars_cons (a : Char) (l : List Char) :
    sanitizeChars (a :: l) =
      if a = emojiChar then sanitizeChars l else encChar a :: sanitizeChars l := by
  by_cases h : a = emojiChar <;>
    simp [sanitizeChars, removeEmoji, encodeReplace, h]

/-- Helper: the replacement map never produces the emoji. -/
theorem encChar_ne_emoji (c : Char) : encChar c ≠ emojiChar := by
  by_cases hc : cp1252Encodable c
  · simp only [encChar, if_pos hc]
    intro h
    rw [h] at hc
    exact absurd hc (by decide)
  · simp only [encChar, if_neg hc]
    decide

/-- Helper: the replacement map only produces cp1252-encodable characters. -/
theorem encChar_encodable (c : Char) : cp1252Encodable (encChar c) = true := by
  by_cases hc : cp1252Encodable c
  · simp only [encChar, if_pos hc]
    exact hc
  · simp only [encChar, if_neg hc]
    decide

/-- Helper: the replacement map is idempotent. -/
theorem encChar_idem (c : Char) : encChar (encChar c) = encChar c := by
  by_cases hc : cp1252Encodable c
  · simp only [encChar, if_pos hc]
  · simp only [encChar, if_neg hc]
    decide

/-- Helper: the full sanitizer is idempotent on character lists. -/
theorem sanitizeChars_idem (l : List Char) :
    sanitizeChars (sanitizeChars l) = sanitizeChars l := by
  induction l with
  | nil => rfl
  | cons a t ih =>
    rw [sanitizeChars_cons a t]
    by_cases h : a = emojiChar
    · simpa [h] using ih
    · rw [if_neg h, sanitizeChars_cons]
      rw [if_neg (encChar_ne_emoji a), encChar_idem, ih]

/-- C5 (amended): the sanitizer is total and never raises; every character
of its output is cp1252-encodable, and apart from the removal of the `📈`
emoji no content is dropped — the output is exactly one character per
surviving input character. -/
theorem c5_sanitize_total (s : List Char) :
    (sanitizeChars s).length = (removeEmoji s).length ∧
    (sanitizeChars s).all cp1252Encodable = true := by
  constructor
  · simp [sanitizeChars, encodeReplace]
  · simp only [List.all_eq_true]
    intro x hx
    simp only [sanitizeChars, encodeReplace, List.mem_map] at hx
    obtain ⟨a, _, rfl⟩ := hx
    exact encChar_encodable a

/-- C6: the export text transform is idempotent — sanitizing an
already-sanitized narrative yields the same text, hence the same document
bytes, as sanitizing it once. -/
theorem c6_sanitize_idempotent (x : String) :
    pdf_safe_text (pdf_safe_text x) = pdf_safe_text x := by
  simp only [pdf_safe_text]
  exact congrArg String.mk (sanitizeChars_idem x.data)

/-- C8 counterexample: Markdown structural markers are not stripped — a
header/emphasis/rule string passes through the export transform unchanged,
so `#`, `*` and `-` do appear in the exported bytes. -/
theorem c8_counterexample :
    pdf_safe_text "### **Header** ---" = "### **Header** ---" ∧
    '#' ∈ (pdf_safe_text "### **Header** ---").data := by
  decide

/-- C8 (amended): the export transform does not strip Markdown markers:
every cp1252-encodable character other than the placeholder `?` and the
removed `📈` emoji occurs in the sanitized text exactly as often as in the
input — in particular `#`, `*` and `-` all pass through. -/
theorem c8_markers_preserved (s : List Char) (c : Char)
    (h1 : cp1252Encodable c = true) (h2 : c ≠ '?') (h3 : c ≠ emojiChar) :
    (sanitizeChars s).count c = s.count c := by
  induction s with
  | nil => rfl
  | cons a t ih =>
    rw [sanitizeChars_cons a t]
    by_cases ha : a = emojiChar
    · rw [if_pos ha, ha, List.count_cons_of_ne (fun h => h3 h) t, ih]
    · rw [if_neg ha]
      have hca : (c = encChar a) ↔ (c = a) := by
        constructor
        · intro he
          by_cases hae : cp1252Encodable a
          · rwa [encChar, if_pos hae] at he
          · rw [encChar, if_neg hae] at he
            exact absurd he h2
        · intro he
          rw [he, encChar, if_pos (he ▸ h1)]
      by_cases hcc : c = a
      · have h5 : c = encChar a := hca.mpr hcc
        rw [← h5, ← hcc, List.count_cons_self, List.count_cons_self, ih]
      · rw [List.count_cons_of_ne (fun h => hcc (hca.mp h)) _,
            List.count_cons_of_ne hcc, ih]

/-- C8 witness: the header marker `#` of the on-screen narrative occurs
equally often before and after sanitization of a sample narrative. -/
theorem c8_markers_preserved_witness :
    (sanitizeChars ("### 📈 **Analysis** ---".data)).count '#' =
      ("### 📈 **Analysis** ---".data).count '#' :=
  c8_markers_preserved ("### 📈 **Analysis** ---".data) '#'
    (by decide) (by decide) (by decide)

/-- Helper: code-point lexicographic comparison is transitive. -/
theorem charListLt_trans : ∀ (a b c : List Char),
    charListLt a b = true → charListLt b c = true → charListLt a c = true
  | _, b, [] => by
      intro _ h2
      simp [charListLt] at h2
  | [], _, _ :: _ => by
      intro _ _
      rfl
  | _ :: _, [], _ :: _ => by
      intro h1 _
      simp [charListLt] at h1
  | x :: xs, y :: ys, z :: zs => by
      intro h1 h2
      simp only [charListLt] at h1 h2 ⊢
      by_cases hxy : x < y
      · by_cases hyz : y < z
        · rw [if_pos (lt_trans hxy hyz)]
        · rw [if_neg hyz] at h2
          by_cases hzy : z < y
          · rw [if_pos hzy] at h2
            exact Bool.noConfusion h2
          · have hyz' : y = z := le_antisymm (le_of_not_lt hzy) (le_of_not_lt hyz)
            rw [if_pos (hyz' ▸ hxy)]
      · rw [if_neg hxy] at h1
        by_cases hyx : y < x
        · rw [if_pos hyx] at h1
          exact Bool.noConfusion h1
        · rw [if_neg hyx] at h1
          have hxy' : x = y := le_antisymm (le_of_not_lt hyx) (le_of_not_lt hxy)
          subst hxy'
          by_cases hyz : x < z
          · rw [if_pos hyz]
          · rw [if_neg hyz] at h2 ⊢
            by_cases hzy : z < x
            · rw [if_pos hzy] at h2
              exact Bool.noConfusion h2
            · rw [if_neg hzy] at h2 ⊢
              exact charListLt_trans xs ys zs h1 h2

/-- Helper: code-point lexicographic comparison is trichotomous. -/
theorem charListLt_total : ∀ (a b : List Char),
    a = b ∨ charListLt a b = true ∨ charListLt b a = true
  | [], [] => Or.inl rfl
  | [], _ :: _ => Or.inr (Or.inl rfl)
  | _ :: _, [] => Or.inr (Or.inr rfl)
  | x :: xs, y :: ys => by
      rcases lt_trichotomy x y with h | h | h
      · exact Or.inr (Or.inl (by simp [charListLt, h]))
      · subst h
        rcases charListLt_total xs ys with h2 | h2 | h2
        · exact Or.inl (by rw [h2])
        · exact Or.inr (Or.inl (by simp [charListLt, lt_irrefl, h2]))
        · exact Or.inr (Or.inr (by simp [charListLt, lt_irrefl, h2]))
      · exact Or.inr (Or.inr (by simp [charListLt, h]))

/-- Helper: string comparison is transitive. -/
theorem strLtB_trans {a b c : String} (h1 : strLtB a b = true)
    (h2 : strLtB b c = true) : strLtB a c = true :=
  charListLt_trans a.data b.data c.data h1 h2

/-- Helper: string comparison is trichotomous. -/
theorem strLtB_total (a b : String) :
    a = b ∨ strLtB a b = true ∨ strLtB b a = true := by
  rcases charListLt_total a.data b.data with h | h | h
  · left
    cases a
    cases b
    exact congrArg String.mk h
  · exact Or.inr (Or.inl h)
  · exact Or.inr (Or.inr h)

/-- Helper: membership in an insertion. -/
theorem mem_insertKey {a k : String} : ∀ (l : List String),
    a ∈ insertKey k l ↔ a = k ∨ a ∈ l
  | [] => by simp [insertKey]
  | x :: xs => by
      by_cases h1 : strLtB k x
      · simp [insertKey, h1]
      · by_cases h2 : k = x
        · subst h2
          simp only [insertKey, if_neg h1, if_pos rfl]
          simp [List.mem_cons]
        · simp only [insertKey, if_neg h1, if_neg h2]
          simp [List.mem_cons, mem_insertKey xs]
          tauto

/-- Helper: insertion preserves strict ascending order. -/
theorem pairwise_insertKey (k : String) : ∀ (l : List String),
    l.Pairwise (fun a b => strLtB a b = true) →
    (insertKey k l).Pairwise (fun a b => strLtB a b = true)
  | [], _ => by simp [insertKey]
  | x :: xs, hl => by
      rw [List.pairwise_cons] at hl
      obtain ⟨hx, hxs⟩ := hl
      by_cases h1 : strLtB k x
      · simp only [insertKey, if_pos h1]
        rw [List.pairwise_cons]
        refine ⟨?_, ?_⟩
        · intro b hb
          rcases List.mem_cons.mp hb with rfl | hb'
          · exact h1
          · exact strLtB_trans h1 (hx b hb')
        · rw [List.pairwise_cons]
          exact ⟨hx, hxs⟩
      · by_cases h2 : k = x
        · simp only [insertKey, if_neg h1, if_pos h2]
          rw [List.pairwise_cons]
          exact ⟨hx, hxs⟩
        · simp only [insertKey, if_neg h1, if_neg h2]
          rw [List.pairwise_cons]
          refine ⟨?_, pairwise_insertKey k xs hxs⟩
          intro b hb
          rcases (mem_insertKey xs).mp hb with rfl | hb'
          · rcases strLtB_total b x with h | h | h
            · exact absurd h h2
            · exact absurd h h1
            · exact h
          · exact hx b hb'

/-- Helper: the distinct-key list of a grouped sum is strictly ascending. -/
theorem pairwise_sortedKeys : ∀ (l : List String),
    (sortedKeys l).Pairwise (fun a b => strLtB a b = true)
  | [] => by simp [sortedKeys]
  | k :: ks => pairwise_insertKey k (sortedKeys ks) (pairwise_sortedKeys ks)

/-- Helper: every key of the input list appears among the sorted distinct
keys. -/
theorem mem_sortedKeys {k : String} : ∀ {l : List String}, k ∈ l → k ∈ sortedKeys l
  | [], h => absurd h (by simp)
  | x :: xs, h => by
      show k ∈ insertKey x (sortedKeys xs)
      rcases List.mem_cons.mp h with rfl | h'
      · exact (mem_insertKey (sortedKeys xs)).mpr (Or.inl rfl)
      · exact (mem_insertKey (sortedKeys xs)).mpr (Or.inr (mem_sortedKeys h'))

/-- C7 (amended): the monthly time series buckets records by the textual
`"%Y : %b"` key (same-month records regardless of day land in the bucket of
their key, whose total is the sum of their sales), and the buckets come
back in strictly ascending lexicographic order of that label — which is
alphabetical by month abbreviation within a year, not chronological. -/
theorem c7_monthly_series_order (ws : List Record) :
    ((linechart ws).map Prod.fst).Pairwise (fun a b => strLtB a b = true)
    ∧ (∀ p ∈ linechart ws,
        p.2 = ((ws.filter (fun r => monthKey r.orderDate == p.1)).map
          (fun r => r.sales)).sum)
    ∧ (∀ r ∈ ws, monthKey r.orderDate ∈ (linechart ws).map Prod.fst) := by
  refine ⟨?_, ?_, ?_⟩
  · rw [linechart, groupSum_keys]
    exact pairwise_sortedKeys _
  · intro p hp
    simp only [linechart, groupSum, List.mem_map] at hp
    obtain ⟨k, hk, rfl⟩ := hp
    rfl
  · intro r hr
    rw [linechart, groupSum_keys]
    exact mem_sortedKeys (List.mem_map.mpr ⟨r, hr, rfl⟩)

/-- C7 witness: the bucket labels of the two-month example are strictly
ascending in the lexicographic string order. -/
theorem c7_monthly_series_order_witness :
    ((linechart ex7).map Prod.fst).Pairwise (fun a b => strLtB a b = true) :=
  (c7_monthly_series_order ex7).1

/-- C3 (amended): a working set holding a single customer with a single
order always aborts segmentation with the caught `InsufficientData` error
path — its recency column is the single value 1, so all quartile edges
coincide and `pd.qcut` raises.  (By `c3_counterexample`, "fewer than 4
distinct values in a dimension" does not in general force this failure.) -/
theorem c3_single_customer_insufficient (r : Record) : rfm_segments [r] = none := by
  have hcust : rfmCustomers [r] = [r.customerId] := by
    simp [rfmCustomers, sortedKeys, insertKey]
  have hords : ordersOf [r] r.customerId = [r] := by
    simp [ordersOf]
  have hrec : recencyOf [r] r.customerId = 1 := by
    simp [recencyOf, snapshotDays, hords, listMax]
  have hrecs : recencies [r] = [1] := by
    simp [recencies, hcust, hrec]
  have hq : qcut4 [(1 : Rat)] [4, 3, 2, 1] = none := by
    norm_num [qcut4, quantile, sortRat, insertRat, strictIncr, Int.toNat]
  have hne : ([r] : List Record).isEmpty = false := rfl
  simp [rfm_segments, hne, hrecs, hq]

/-- C1 (amended): when the city selection is non-empty the working set is
the cascaded intersection — records of the base frame that match the region
selection (when present), the state selection (when present) and the city
selection — because the `city` branch filters the already region- and
state-restricted `df3`; the most specific level does not win alone. -/
theorem c1_filter_cascade (df : List Record) (region state city : List String)
    (h : city ≠ []) (r : Record) :
    r ∈ filtered_df df region state city ↔
      r ∈ df ∧ (region = [] ∨ r.region ∈ region) ∧ (state = [] ∨ r.state ∈ state) ∧
        r.city ∈ city := by
  obtain ⟨c, cs, rfl⟩ : ∃ c cs, city = c :: cs := by
    cases city with
    | nil => exact absurd rfl h
    | cons c cs => exact ⟨c, cs, rfl⟩
  cases region with
  | nil =>
    cases state with
    | nil =>
      simp [filtered_df, List.mem_filter]
      try tauto
    | cons s ss =>
      simp [filtered_df, List.mem_filter]
      try tauto
  | cons a as =>
    cases state with
    | nil =>
      simp [filtered_df, List.mem_filter]
      try tauto
    | cons s ss =>
      simp [filtered_df, List.mem_filter]
      try tauto

/-- C1 witness: the cascade characterization applied to the two-row
Los Angeles example with all three levels selected. -/
theorem c1_filter_cascade_witness :
    recWestLA ∈ filtered_df ex1 ["East"] ["California"] ["Los Angeles"] ↔
      recWestLA ∈ ex1 ∧
        (["East"] = ([] : List String) ∨ recWestLA.region ∈ ["East"]) ∧
        (["California"] = ([] : List String) ∨ recWestLA.state ∈ ["California"]) ∧
        recWestLA.city ∈ ["Los Angeles"] :=
  c1_filter_cascade ex1 ["East"] ["California"] ["Los Angeles"] (by decide) recWestLA

/-- C10 (amended): the narrative text is a pure function of the input rows
and the rows themselves are never changed; the only effect on the caller's
dataframe is the in-place datetime conversion of the `Order Date` column,
so on an input whose column is already datetime the state is left fully
unchanged. -/
theorem c10_report_frame (df : DataFrame) :
    (generate_reportSt df).1 = generate_report df.rows
    ∧ (generate_reportSt df).2.rows = df.rows
    ∧ (df.orderDateIsDatetime = true → (generate_reportSt df).2 = df) := by
  refine ⟨?_, ?_, ?_⟩
  · by_cases h : df.rows.isEmpty <;> simp [generate_reportSt, generate_report, h]
  · by_cases h : df.rows.isEmpty <;> simp [generate_reportSt, h]
  · intro hd
    cases df with
    | mk rows dt =>
      simp only at hd
      subst hd
      by_cases h : rows.isEmpty <;> simp [generate_reportSt, h]

/-- C10 witness: on an already-datetime empty dataframe the state comes
back unchanged. -/
theorem c10_report_frame_witness :
    (generate_reportSt ⟨[], true⟩).2 = ⟨[], true⟩ :=
  (c10_report_frame ⟨[], true⟩).2.2 rfl
